import Mathlib

/-!
Shallow embedding of `public/app/features/search/page/components/columns.tsx`
(the search-results column planner) and proofs about it.

Modelling conventions:
* A column-oriented field accessor (`Field<T>` whose `values.get(i)` may yield
  `undefined`) is a `FieldVals α := Nat → Option α`; a field that may itself be
  absent on the view is an `Option (FieldVals α)`.
* Pixel widths are exact rationals (`ℚ`); `availableWidth * 0.2` is
  `availableWidth * (1/5)`.
* JSX output is reified into the `CellRender` inductive; a React `null` return
  is `CellRender.null`.  Event handlers are reified as the ordered list of
  observable actions they perform (`UIEvent`): calling `e.preventDefault()`,
  `e.stopPropagation()`, or invoking a caller-supplied callback.
* A JavaScript `TypeError` (property access on `undefined`) is `Except.error`;
  cells that cannot throw always return `Except.ok`.
-/

namespace GrafanaSearchColumns

/-- Per-row values of one data-frame field: `values.get i`, `none` = `undefined`. -/
def FieldVals (α : Type) := Nat → Option α

/-- The named field accessors exposed by `response.view.fields`; each field may be
absent from the result frame (`undefined`). -/
structure FieldAccess where
  uid : Option (FieldVals String)
  kind : Option (FieldVals String)
  name : Option (FieldVals String)
  panel_type : Option (FieldVals String)
  ds_uid : Option (FieldVals (List String))
  location : Option (FieldVals String)
  tags : Option (FieldVals (List String))
  url : Option (FieldVals String)

/-- One entry of `SearchResultMeta.locationInfo`. -/
structure LocationInfo where
  kind : String
  name : String
  url : String

/-- The slice of `QueryResponse` the planner reads: the field accessors and
`response.view.dataFrame.meta?.custom.locationInfo` (absent ⇒ `none`). -/
structure QueryResponse where
  fields : FieldAccess
  locationInfo : Option (String → Option LocationInfo)

/-- Datasource instance settings as consumed here: the optional-chained
`settings?.meta?.info?.logos?.small` is collapsed into `logoSmall`. -/
structure DataSourceInstanceSettings where
  uid : String
  type : String
  name : String
  logoSmall : Option String

/-- `getDataSourceSrv().getInstanceSettings` : unknown ids yield `undefined`. -/
def DataSourceSrv := String → Option DataSourceInstanceSettings

/-- `info.logos.small` of a panel plugin (`logos` is total in the TS type). -/
structure PanelPluginLogos where
  small : String

/-- `PluginMetaInfo` as consumed: only `logos` is read. -/
structure PanelPluginInfo where
  logos : PanelPluginLogos

/-- One `config.panels[key]` entry as consumed: `name` and `info` may be absent. -/
structure PanelPluginMeta where
  name : Option String
  info : Option PanelPluginInfo

/-- `config.panels` : unknown panel types yield `undefined`. -/
def PanelRegistry := String → Option PanelPluginMeta

/-- `SelectionChecker`: `selection(kind, uid)`; both arguments can be
`undefined` at the call sites in this module. -/
def SelectionChecker := Option String → Option String → Bool

/-- Observable actions an interaction-event handler performs, in order. -/
inductive UIEvent where
  | preventDefault
  | stopPropagation
  | invoke (callback : String) (args : List (Option String))
deriving DecidableEq

/-- One rendered segment of the location breadcrumb. -/
inductive LocationPart where
  | link (icon : String) (name : String) (url : String)
  | text (raw : String)
deriving DecidableEq

/-- One rendered item of the datasource cell. -/
inductive DataSourceItem where
  | chip (icon : String) (name : String) (type : String) (onClick : List UIEvent)
  | invalid (raw : String)
deriving DecidableEq

/-- Reified cell output.  `null` is the React `null` return (nothing rendered,
not an empty container). -/
inductive CellRender where
  | null
  | checkbox (disabled : Bool) (value : Bool) (onChange : List UIEvent)
  | nameLink (name : Option String)
  | typeCell (icon : String) (txt : String)
  | datasource (items : List DataSourceItem)
  | location (parts : List LocationPart)
  | tags (tags : List String)
deriving DecidableEq

/-- Header render: a plain label or the select-all checkbox stub. -/
inductive HeaderRender where
  | text (s : String)
  | selectAllCheckbox (onChange : List UIEvent)
deriving DecidableEq

deriving instance DecidableEq for Except

/-- One planned column (`TableColumn`): id, width, header, per-row cell
formatter.  A cell that would throw a `TypeError` returns `Except.error`. -/
structure TableColumn where
  id : String
  width : ℚ
  header : HeaderRender
  cell : Nat → Except String CellRender

instance : Inhabited TableColumn :=
  ⟨{ id := "", width := 0, header := .text "", cell := fun _ => .ok .null }⟩

def TYPE_COLUMN_WIDTH : ℚ := 250
def DATASOURCE_COLUMN_WIDTH : ℚ := 200
def LOCATION_COLUMN_WIDTH : ℚ := 200
def TAGS_COLUMN_WIDTH : ℚ := 300

/-- The JS `TypeError` raised by a property access on `undefined`. -/
def undefinedAccessError : String := "TypeError: cannot read properties of undefined"

/-- `getIconForKind` (lines 156-164). -/
def getIconForKind (v : String) : String :=
  if v = "dashboard" then "apps"
  else if v = "folder" then "folder"
  else "question-circle"

def appsSvg : String := "public/img/icons/unicons/apps.svg"
def folderSvg : String := "public/img/icons/unicons/folder.svg"
def graphBarSvg : String := "public/img/icons/unicons/graph-bar.svg"

/-- `makeDataSourceColumn` (lines 166-215).  `field` is always present at the
call site (guarded by `access.ds_uid &&`), so it is passed directly. -/
def makeDataSourceColumn (field : FieldVals (List String)) (width : ℚ)
    (srv : DataSourceSrv) : TableColumn :=
  { id := "column-datasource"
    width := width
    header := .text "Data source"
    cell := fun i =>
      match field i with
      | none => .ok .null
      | some dslist =>
        if dslist.length = 0 then .ok .null
        else
          .ok (.datasource (dslist.map fun v =>
            match srv v with
            | some settings =>
              match settings.logoSmall with
              | some icon =>
                if icon ≠ "" then
                  .chip icon settings.name settings.type
                    [.stopPropagation, .preventDefault,
                      .invoke "onDatasourceChange" [some settings.uid]]
                else .invalid v
              | none => .invalid v
            | none => .invalid v)) }

/-- `makeTypeColumn` (lines 217-270).  The accessor crashes when
`kind == "panel"` and the `panel_type` field is absent (`typeField.values` on
`undefined`). -/
def makeTypeColumn (kindField : Option (FieldVals String))
    (typeField : Option (FieldVals String)) (width : ℚ)
    (panels : PanelRegistry) : TableColumn :=
  { id := "column-type"
    width := width
    header := .text "Type"
    cell := fun i =>
      let kind := ((kindField.bind fun kf => kf i).getD "dashboard")
      if kind = "" then .ok (.typeCell appsSvg "Dashboard")
      else if kind = "dashboard" then .ok (.typeCell appsSvg "Dashboard")
      else if kind = "folder" then .ok (.typeCell folderSvg "Folder")
      else if kind = "panel" then
        match typeField with
        | none => .error undefinedAccessError
        | some tf =>
          match tf i with
          | none => .ok (.typeCell graphBarSvg "panel")
          | some t =>
            if t = "" then .ok (.typeCell graphBarSvg "panel")
            else
              match panels t with
              | some info =>
                match info.name with
                | some nm =>
                  if nm ≠ "" then
                    .ok (.typeCell
                      (match info.info with
                       | some pi =>
                         if pi.logos.small ≠ "" ∧ pi.logos.small.endsWith ".svg"
                         then pi.logos.small else graphBarSvg
                       | none => graphBarSvg)
                      nm)
                  else .ok (.typeCell graphBarSvg t)
                | none => .ok (.typeCell graphBarSvg t)
              | none => .ok (.typeCell graphBarSvg t)
      else .ok (.typeCell appsSvg kind) }

/-- `makeTagsColumn` (lines 272-292).  The `field` parameter receives
`access.tags`, which may be `undefined`: the cell then throws on
`field.values`.  A row whose tags value is `undefined` renders `null`; a
present (even empty) list renders the tag-list wrapper. -/
def makeTagsColumn (field : Option (FieldVals (List String))) (width : ℚ) :
    TableColumn :=
  { id := "column-tags"
    width := width
    header := .text "Tags"
    cell := fun i =>
      match field with
      | none => .error undefinedAccessError
      | some f =>
        match f i with
        | some tags => .ok (.tags tags)
        | none => .ok .null }

/-- The selection (checkbox) column pushed at lines 36-74 when both `selection`
and `selectionToggle` are provided.  The cell reads `uidField.values` without a
guard, so an absent `uid` field crashes; `kind` falls back to the literal
`"dashboard"` only when the kind field accessor is absent. -/
def selectionColumn (uidField : Option (FieldVals String))
    (kindField : Option (FieldVals String)) (sel : SelectionChecker) :
    TableColumn :=
  { id := "column-checkbox"
    width := 30
    header := .selectAllCheckbox
      [.stopPropagation, .preventDefault, .invoke "alert" [some "SELECT ALL!!!"]]
    cell := fun i =>
      match uidField with
      | none => .error undefinedAccessError
      | some uf =>
        let uid := uf i
        let kind : Option String :=
          match kindField with
          | some kf => kf i
          | none => some "dashboard"
        let selected := sel kind uid
        let hasUID := uid.isSome
        .ok (.checkbox (!hasUID) (selected && hasUID)
          [.invoke "selectionToggle" [kind, uid]]) }

/-- The name column pushed at lines 76-91. -/
def nameColumn (nameField : Option (FieldVals String)) (width : ℚ) :
    TableColumn :=
  { id := "column-name"
    width := width
    header := .text "Name"
    cell := fun i =>
      match nameField with
      | none => .error undefinedAccessError
      | some nf => .ok (.nameLink (nf i)) }

/-- JavaScript `String.prototype.split('/')` on the character list: the empty
string yields one empty segment, and consecutive separators yield empty
segments. -/
def splitSlash : List Char → List (List Char)
  | [] => [[]]
  | c :: rest =>
    if c = '/' then [] :: splitSlash rest
    else
      match splitSlash rest with
      | [] => [[c]]
      | g :: gs => (c :: g) :: gs

/-- JavaScript `s.split('/')` (structurally recursive, hence executable). -/
def jsSplitOnSlash (s : String) : List String :=
  (splitSlash s.data).map fun cs => String.mk cs

/-- The location column pushed at lines 114-148 when `meta?.locationInfo` is
present.  `access.location?.values.get(i) ?? ''` is split on `/` and each
segment resolved through `locationInfo`. -/
def locationColumn (locField : Option (FieldVals String))
    (li : String → Option LocationInfo) (width : ℚ) : TableColumn :=
  { id := "column-location"
    width := width
    header := .text "Location"
    cell := fun i =>
      let parts := jsSplitOnSlash ((locField.bind fun lf => lf i).getD "")
      .ok (.location (parts.map fun p =>
        match li p with
        | some info => .link (getIconForKind info.kind) info.name info.url
        | none => .text p)) }

/-- `generateColumns` (lines 20-154): the ordered, width-subtracting column
planner.  `selectionToggle` and `onDatasourceChange` matter only through their
presence, so they are modelled as `Option Unit`; `srv` and `panels` are the
read-only external registries (`getDataSourceSrv()`, `config.panels`). -/
def generateColumns (response : QueryResponse) (availableWidth : ℚ)
    (selection : Option SelectionChecker) (selectionToggle : Option Unit)
    (srv : DataSourceSrv) (panels : PanelRegistry)
    (onDatasourceChange : Option Unit) : List TableColumn :=
  let access := response.fields
  let (selCols, aw1) :=
    match selection, selectionToggle with
    | some sel, some _ =>
      ([selectionColumn access.uid access.kind sel], availableWidth - 30)
    | _, _ => ([], availableWidth)
  let nameWidth := max (aw1 * (1/5)) 300
  let aw2 := aw1 - nameWidth
  let aw3 := aw2 - TYPE_COLUMN_WIDTH
  let (dsCols, aw4) :=
    match access.ds_uid, onDatasourceChange with
    | some dsField, some _ =>
      ([makeDataSourceColumn dsField DATASOURCE_COLUMN_WIDTH srv],
        aw3 - DATASOURCE_COLUMN_WIDTH)
    | _, _ => ([], aw3)
  let locWidth := max (aw4 - TAGS_COLUMN_WIDTH) LOCATION_COLUMN_WIDTH
  let (locCols, aw5) :=
    match response.locationInfo with
    | some li => ([locationColumn access.location li locWidth], aw4 - locWidth)
    | none => ([], aw4)
  selCols
    ++ [nameColumn access.name nameWidth,
        makeTypeColumn access.kind access.panel_type TYPE_COLUMN_WIDTH panels]
    ++ dsCols ++ locCols
    ++ [makeTagsColumn access.tags aw5]

/-! ### Spec-side definitions (written from the claims' wording) -/

/-- The kind value the selection cell passes to the callbacks: the row's kind
field value when the accessor exists, the literal `"dashboard"` otherwise. -/
def kindAt (kindField : Option (FieldVals String)) (i : Nat) : Option String :=
  match kindField with
  | some kf => kf i
  | none => some "dashboard"

/-- The running width budget just before the location step: the original
`availableWidth` minus the selection column (30, when emitted), the name
column (`max` of 20% of the remainder and 300), the type column (250), and the
datasource column (200, when emitted). -/
def widthBeforeLocation (aw : ℚ) (hasSel hasDS : Bool) : ℚ :=
  let aw1 := if hasSel then aw - 30 else aw
  let aw2 := aw1 - max (aw1 * (1/5)) 300
  let aw3 := aw2 - TYPE_COLUMN_WIDTH
  if hasDS then aw3 - DATASOURCE_COLUMN_WIDTH else aw3

/-- The type-cell mapping exactly as claim C4 states it (spec-side definition,
to compare with `makeTypeColumn`): absent/empty/falsy kind → apps icon and
label "Dashboard"; "dashboard" → the same; "folder" → folder icon, "Folder";
"panel" → graph icon and the raw `panel_type` string as label, with the
registry display name overriding the label and a registry small logo ending in
".svg" overriding the icon; any other kind → the raw kind string with the
default icon. -/
def claimedTypeCell (panels : PanelRegistry) (kind : Option String)
    (ptype : Option String) : CellRender :=
  match kind with
  | none => .typeCell appsSvg "Dashboard"
  | some k =>
    if k = "" then .typeCell appsSvg "Dashboard"
    else if k = "dashboard" then .typeCell appsSvg "Dashboard"
    else if k = "folder" then .typeCell folderSvg "Folder"
    else if k = "panel" then
      let raw := ptype.getD ""
      match panels raw with
      | some info =>
        match info.name with
        | some nm =>
          if nm ≠ "" then
            .typeCell
              (match info.info with
               | some pi =>
                 if pi.logos.small.endsWith ".svg" then pi.logos.small
                 else graphBarSvg
               | none => graphBarSvg)
              nm
          else .typeCell graphBarSvg raw
        | none => .typeCell graphBarSvg raw
      | none => .typeCell graphBarSvg raw
    else .typeCell appsSvg k

/-- The type-cell mapping as amended: identical to the claim's mapping except
that for `kind = "panel"` the label falls back to the literal `"panel"` when
the `panel_type` value is absent or empty (and the registry override only
applies to a non-empty `panel_type`). -/
def amendedTypeCell (panels : PanelRegistry) (kind : Option String)
    (ptype : Option String) : CellRender :=
  match kind with
  | none => .typeCell appsSvg "Dashboard"
  | some k =>
    if k = "" then .typeCell appsSvg "Dashboard"
    else if k = "dashboard" then .typeCell appsSvg "Dashboard"
    else if k = "folder" then .typeCell folderSvg "Folder"
    else if k = "panel" then
      match ptype with
      | none => .typeCell graphBarSvg "panel"
      | some t =>
        if t = "" then .typeCell graphBarSvg "panel"
        else
          match panels t with
          | some info =>
            match info.name with
            | some nm =>
              if nm ≠ "" then
                .typeCell
                  (match info.info with
                   | some pi =>
                     if pi.logos.small.endsWith ".svg" then pi.logos.small
                     else graphBarSvg
                   | none => graphBarSvg)
                  nm
              else .typeCell graphBarSvg t
            | none => .typeCell graphBarSvg t
          | none => .typeCell graphBarSvg t
    else .typeCell appsSvg k

/-- The location-cell rendering as claim C6 states it (spec-side definition):
split the row's location string (absent ⇒ empty string) on `/`; a segment
found in `locationInfo` renders as a link with icon `getIconForKind info.kind`
and label `info.name`; an unknown segment renders as plain text. -/
def claimedLocationCell (li : String → Option LocationInfo)
    (loc : Option String) : CellRender :=
  .location ((jsSplitOnSlash (loc.getD "")).map fun seg =>
    match li seg with
    | some info => .link (getIconForKind info.kind) info.name info.url
    | none => .text seg)

/-- One datasource identifier's rendering as claim C7 states it: a clickable
chip (whose click suppresses default/bubbling and then invokes the
datasource-change callback with the resolved settings' uid) when the registry
returns settings exposing a small logo; otherwise the raw identifier in the
invalid-datasource style. -/
def claimedDataSourceItem (srv : DataSourceSrv) (v : String) : DataSourceItem :=
  match srv v with
  | some settings =>
    match settings.logoSmall with
    | some icon =>
      if icon ≠ "" then
        .chip icon settings.name settings.type
          [.stopPropagation, .preventDefault,
            .invoke "onDatasourceChange" [some settings.uid]]
      else .invalid v
    | none => .invalid v
  | none => .invalid v

/-- The datasource-cell rendering as claim C7 states it: nothing (not an empty
container) for an absent or empty list; otherwise one item per identifier. -/
def claimedDataSourceCell (srv : DataSourceSrv)
    (dslist : Option (List String)) : CellRender :=
  match dslist with
  | none => .null
  | some [] => .null
  | some l => .datasource (l.map (claimedDataSourceItem srv))

/-! ### Sample fixtures used by witnesses and counterexamples -/

/-- A result view exposing no fields at all. -/
def noFields : FieldAccess := ⟨none, none, none, none, none, none, none, none⟩

/-- A datasource registry that knows no ids. -/
def srv0 : DataSourceSrv := fun _ => none

/-- A panel-type registry with no entries. -/
def panels0 : PanelRegistry := fun _ => none

/-- A response with no fields and no location metadata. -/
def r0 : QueryResponse := ⟨noFields, none⟩

/-- A view field whose every row has uid `"u1"`. -/
def uidVals : FieldVals String := fun _ => some "u1"

/-- A response whose view has a uid field and nothing else. -/
def r1 : QueryResponse := ⟨{ noFields with uid := some uidVals }, none⟩

/-- A selection predicate that marks every row selected. -/
def sel1 : SelectionChecker := fun _ _ => true

/-- A location-info map resolving only the key `"a"`. -/
def li2 : String → Option LocationInfo := fun s =>
  if s = "a" then some ⟨"folder", "A", "/a"⟩ else none

/-- A response with a `ds_uid` field and location metadata. -/
def r2 : QueryResponse :=
  ⟨{ noFields with ds_uid := some (fun _ => some ["ds1"]) }, some li2⟩

/-- A response whose every row has location `"a/b"`, with metadata resolving
only segment `"a"` (the spec's worked example). -/
def r3 : QueryResponse :=
  ⟨{ noFields with location := some (fun _ => some "a/b") }, some li2⟩

/-- Settings for a known datasource with a small logo. -/
def dsSettings1 : DataSourceInstanceSettings :=
  ⟨"uid1", "prometheus", "DS One", some "logo.svg"⟩

/-- A registry resolving only `"ds1"`. -/
def srv1 : DataSourceSrv := fun v => if v = "ds1" then some dsSettings1 else none

/-- Every row references datasources `["ds1", "ds2"]`. -/
def dsVals1 : FieldVals (List String) := fun _ => some ["ds1", "ds2"]

/-! ### Projection lemmas (ids and widths of the column makers) -/

@[simp] theorem selectionColumn_id (uf kf : Option (FieldVals String))
    (sel : SelectionChecker) : (selectionColumn uf kf sel).id = "column-checkbox" := rfl

@[simp] theorem selectionColumn_width (uf kf : Option (FieldVals String))
    (sel : SelectionChecker) : (selectionColumn uf kf sel).width = 30 := rfl

@[simp] theorem nameColumn_id (nf : Option (FieldVals String)) (w : ℚ) :
    (nameColumn nf w).id = "column-name" := rfl

@[simp] theorem nameColumn_width (nf : Option (FieldVals String)) (w : ℚ) :
    (nameColumn nf w).width = w := rfl

@[simp] theorem makeTypeColumn_id (kf tf : Option (FieldVals String)) (w : ℚ)
    (panels : PanelRegistry) : (makeTypeColumn kf tf w panels).id = "column-type" := rfl

@[simp] theorem makeTypeColumn_width (kf tf : Option (FieldVals String)) (w : ℚ)
    (panels : PanelRegistry) : (makeTypeColumn kf tf w panels).width = w := rfl

@[simp] theorem makeDataSourceColumn_id (f : FieldVals (List String)) (w : ℚ)
    (srv : DataSourceSrv) : (makeDataSourceColumn f w srv).id = "column-datasource" := rfl

@[simp] theorem makeDataSourceColumn_width (f : FieldVals (List String)) (w : ℚ)
    (srv : DataSourceSrv) : (makeDataSourceColumn f w srv).width = w := rfl

@[simp] theorem locationColumn_id (lf : Option (FieldVals String))
    (li : String → Option LocationInfo) (w : ℚ) :
    (locationColumn lf li w).id = "column-location" := rfl

@[simp] theorem locationColumn_width (lf : Option (FieldVals String))
    (li : String → Option LocationInfo) (w : ℚ) :
    (locationColumn lf li w).width = w := rfl

@[simp] theorem makeTagsColumn_id (f : Option (FieldVals (List String))) (w : ℚ) :
    (makeTagsColumn f w).id = "column-tags" := rfl

@[simp] theorem makeTagsColumn_width (f : Option (FieldVals (List String))) (w : ℚ) :
    (makeTagsColumn f w).width = w := rfl

/-! ### C1 -/

/-- C1: for every planning call, the widths of the returned columns sum to at
most the originally supplied `availableWidth`, whichever of the optional
columns (selection, datasource, location) are included and whichever floor
binds — the tags column absorbs exactly the residual budget. -/
theorem C1_widths_sum_le_available (response : QueryResponse)
    (availableWidth : ℚ) (selection : Option SelectionChecker)
    (selectionToggle : Option Unit) (srv : DataSourceSrv)
    (panels : PanelRegistry) (odc : Option Unit) :
    ((generateColumns response availableWidth selection selectionToggle srv
        panels odc).map TableColumn.width).sum ≤ availableWidth := by
  rcases selection with _ | sel <;> rcases selectionToggle with _ | st <;>
    rcases hds : response.fields.ds_uid with _ | dsf <;>
    rcases odc with _ | u <;>
    rcases hli : response.locationInfo with _ | li <;>
    simp [generateColumns, hds, hli, TYPE_COLUMN_WIDTH,
      DATASOURCE_COLUMN_WIDTH, TAGS_COLUMN_WIDTH, LOCATION_COLUMN_WIDTH]

/-! ### C2 -/

/-- C2 (counterexample): the claim "every returned column has width ≥ 0, for
every value of `availableWidth`" fails: with `availableWidth = 0` and no
optional columns, the planner returns widths `[300, 250, -550]` and the tags
column's residual width is negative. -/
theorem C2_counterexample :
    ∃ c ∈ generateColumns r0 0 none none srv0 panels0 none, c.width < 0 := by
  have h : ((generateColumns r0 0 none none srv0 panels0 none).map
      TableColumn.width) = [300, 250, -550] := by
    norm_num [generateColumns, r0, noFields, TYPE_COLUMN_WIDTH,
      TAGS_COLUMN_WIDTH, LOCATION_COLUMN_WIDTH, max_def]
  have hm : (-550 : ℚ) ∈ (generateColumns r0 0 none none srv0 panels0
      none).map TableColumn.width := by rw [h]; simp
  obtain ⟨c, hc, hw⟩ := List.mem_map.mp hm
  exact ⟨c, hc, by rw [hw]; norm_num⟩

/-- C2 (amended): every returned column other than the tags column has width
≥ 0 (selection 30, name ≥ 300, type 250, datasource 200, location ≥ 200); the
tags column receives the residual budget, which can be negative for small
`availableWidth`. -/
theorem C2_amended_nonneg_except_tags (response : QueryResponse) (aw : ℚ)
    (selection : Option SelectionChecker) (selectionToggle : Option Unit)
    (srv : DataSourceSrv) (panels : PanelRegistry) (odc : Option Unit) :
    ∀ c ∈ generateColumns response aw selection selectionToggle srv panels odc,
      c.id ≠ "column-tags" → 0 ≤ c.width := by
  rcases selection with _ | sel <;> rcases selectionToggle with _ | st <;>
    rcases hds : response.fields.ds_uid with _ | dsf <;>
    rcases odc with _ | u <;>
    rcases hli : response.locationInfo with _ | li <;>
    simp [generateColumns, hds, hli, TYPE_COLUMN_WIDTH,
      DATASOURCE_COLUMN_WIDTH, TAGS_COLUMN_WIDTH, LOCATION_COLUMN_WIDTH,
      le_max_iff, List.forall_mem_cons]

/-- Witness for `C2_amended_nonneg_except_tags` at a concrete input: in the
planning call with no fields and zero width, the type column is not the tags
column and its width is nonnegative. -/
theorem C2_amended_witness :
    (makeTypeColumn none none TYPE_COLUMN_WIDTH panels0).id ≠ "column-tags" ∧
    0 ≤ (makeTypeColumn none none TYPE_COLUMN_WIDTH panels0).width :=
  ⟨by simp [makeTypeColumn],
    C2_amended_nonneg_except_tags r0 0 none none srv0 panels0 none _
      (by simp [generateColumns, r0, noFields])
      (by simp [makeTypeColumn])⟩

/-! ### C3 -/

/-- C3: the selection column is absent when either the selection predicate or
the toggle is missing; when both are supplied it is present, first, with width
exactly 30, and (whenever the uid field exists) its per-row checkbox is
disabled exactly when the row's uid value is absent. -/
theorem C3_selection_column (response : QueryResponse) (aw : ℚ)
    (selection : Option SelectionChecker) (selectionToggle : Option Unit)
    (srv : DataSourceSrv) (panels : PanelRegistry) (odc : Option Unit) :
    ((selection = none ∨ selectionToggle = none) →
      ∀ c ∈ generateColumns response aw selection selectionToggle srv panels
        odc, c.id ≠ "column-checkbox")
    ∧ (∀ sel, selection = some sel → selectionToggle = some () →
        ∃ rest,
          generateColumns response aw selection selectionToggle srv panels odc
            = selectionColumn response.fields.uid response.fields.kind sel
                :: rest
          ∧ (selectionColumn response.fields.uid response.fields.kind sel).id
              = "column-checkbox"
          ∧ (selectionColumn response.fields.uid response.fields.kind
              sel).width = 30
          ∧ ∀ uf, response.fields.uid = some uf → ∀ i,
              (selectionColumn response.fields.uid response.fields.kind
                sel).cell i
                = .ok (.checkbox (uf i).isNone
                    (sel (kindAt response.fields.kind i) (uf i)
                      && (uf i).isSome)
                    [.invoke "selectionToggle"
                      [kindAt response.fields.kind i, uf i]])) := by
  constructor
  · intro h
    rcases selection with _ | sel <;> rcases selectionToggle with _ | st <;>
      rcases hds : response.fields.ds_uid with _ | dsf <;>
      rcases odc with _ | u <;>
      rcases hli : response.locationInfo with _ | li <;>
      simp [generateColumns, hds, hli, List.forall_mem_cons] at h ⊢
  · rintro sel rfl rfl
    refine ⟨_, rfl, rfl, rfl, ?_⟩
    intro uf huf i
    simp only [selectionColumn, huf, kindAt]
    cases uf i <;> rfl

/-- Witness for `C3_selection_column`: with selection and toggle supplied, the
first column of the concrete planning call is the checkbox column with width 30
and an enabled checked checkbox for row 0 (which has a uid). -/
theorem C3_witness :
    (generateColumns r1 1000 (some sel1) (some ()) srv0 panels0 none).headI.id
        = "column-checkbox"
      ∧ (generateColumns r1 1000 (some sel1) (some ()) srv0 panels0
          none).headI.width = 30
      ∧ (generateColumns r1 1000 (some sel1) (some ()) srv0 panels0
          none).headI.cell 0
        = .ok (.checkbox false true
            [.invoke "selectionToggle" [some "dashboard", some "u1"]]) := by
  obtain ⟨rest, hEq, hid, hw, hcell⟩ :=
    (C3_selection_column r1 1000 (some sel1) (some ()) srv0 panels0 none).2
      sel1 rfl rfl
  rw [hEq]
  simp only [List.headI]
  exact ⟨hid, hw, by
    simpa [uidVals, sel1, kindAt, r1, noFields] using hcell uidVals rfl 0⟩

/-! ### C4 -/

/-- C4 (counterexample): for `kind = "panel"` with an empty `panel_type`
string and an empty registry, the code labels the cell `"panel"` (the kind
string), not the raw `panel_type` string `""` that the claim's mapping
dictates. -/
theorem C4_counterexample :
    (makeTypeColumn (some (fun _ => some "panel")) (some (fun _ => some ""))
        TYPE_COLUMN_WIDTH panels0).cell 0
      = .ok (.typeCell graphBarSvg "panel")
    ∧ claimedTypeCell panels0 (some "panel") (some "")
      = .typeCell graphBarSvg ""
    ∧ ("panel" : String) ≠ "" := by
  refine ⟨by simp [makeTypeColumn, panels0], by simp [claimedTypeCell,
    panels0], by simp⟩

/-- C4 (amended): whenever the `panel_type` field accessor exists, the type
column's cell formatter realizes exactly the amended mapping
`amendedTypeCell`, for every row and every state of the kind field and the
panel registry (and in particular it never throws). -/
theorem C4_amended_type_mapping (kindField : Option (FieldVals String))
    (tf : FieldVals String) (w : ℚ) (panels : PanelRegistry) (i : Nat) :
    (makeTypeColumn kindField (some tf) w panels).cell i
      = .ok (amendedTypeCell panels (kindField.bind fun kf => kf i) (tf i)) := by
  simp only [makeTypeColumn, amendedTypeCell]
  rcases kindField with _ | kf
  · simp
  · simp only [Option.some_bind]
    cases hk : kf i with
    | none => simp
    | some k =>
      simp only [Option.getD_some]
      by_cases h1 : k = ""
      · rw [if_pos h1, if_pos h1]
      · rw [if_neg h1, if_neg h1]
        by_cases h2 : k = "dashboard"
        · rw [if_pos h2, if_pos h2]
        · rw [if_neg h2, if_neg h2]
          by_cases h3 : k = "folder"
          · rw [if_pos h3, if_pos h3]
          · rw [if_neg h3, if_neg h3]
            by_cases h4 : k = "panel"
            · rw [if_pos h4, if_pos h4]
              cases ht : tf i with
              | none => rfl
              | some t =>
                dsimp only
                by_cases h5 : t = ""
                · rw [if_pos h5, if_pos h5]
                · rw [if_neg h5, if_neg h5]
                  cases hp : panels t with
                  | none => rfl
                  | some info =>
                    dsimp only
                    cases hn : info.name with
                    | none => rfl
                    | some nm =>
                      dsimp only
                      by_cases h6 : nm = ""
                      · rw [if_neg (fun hc => hc h6),
                          if_neg (fun hc => hc h6)]
                      · rw [if_pos h6, if_pos h6]
                        cases hpi : info.info with
                        | none => rfl
                        | some pi =>
                          dsimp only
                          by_cases h8 : pi.logos.small.endsWith ".svg" = true
                          · by_cases h7 : pi.logos.small = ""
                            · rw [h7] at h8
                              exact absurd h8 (by decide)
                            · rw [if_pos ⟨h7, h8⟩, if_pos h8]
                          · rw [if_neg (fun hc => h8 hc.2), if_neg h8]
            · rw [if_neg h4, if_neg h4]

/-! ### C5 -/

/-- Helper: with a `ds_uid` field and a datasource-change callback, the
planner emits a datasource column of width 200. -/
theorem datasource_column_present (response : QueryResponse) (aw : ℚ)
    (selection : Option SelectionChecker) (selectionToggle : Option Unit)
    (srv : DataSourceSrv) (panels : PanelRegistry)
    (dsf : FieldVals (List String))
    (hds : response.fields.ds_uid = some dsf) (u : Unit) :
    ∃ c ∈ generateColumns response aw selection selectionToggle srv panels
      (some u), c.id = "column-datasource"
      ∧ c.width = DATASOURCE_COLUMN_WIDTH := by
  rcases selection with _ | sel <;> rcases selectionToggle with _ | st <;>
    rcases hli : response.locationInfo with _ | li <;>
    simp [generateColumns, hds, hli]

/-- Helper: without a `ds_uid` field or without a datasource-change callback,
no datasource column is emitted. -/
theorem datasource_column_absent (response : QueryResponse) (aw : ℚ)
    (selection : Option SelectionChecker) (selectionToggle : Option Unit)
    (srv : DataSourceSrv) (panels : PanelRegistry) (odc : Option Unit)
    (h : response.fields.ds_uid = none ∨ odc = none) :
    ∀ c ∈ generateColumns response aw selection selectionToggle srv panels
      odc, c.id ≠ "column-datasource" := by
  rcases selection with _ | sel <;> rcases selectionToggle with _ | st <;>
    rcases hds : response.fields.ds_uid with _ | dsf <;>
    rcases odc with _ | u <;>
    rcases hli : response.locationInfo with _ | li <;>
    simp_all [generateColumns, List.forall_mem_cons]

/-- Helper: with location metadata, the planner emits a location column whose
width is `max (remaining − 300) 200` for the budget remaining at that step. -/
theorem location_column_present (response : QueryResponse) (aw : ℚ)
    (selection : Option SelectionChecker) (selectionToggle : Option Unit)
    (srv : DataSourceSrv) (panels : PanelRegistry) (odc : Option Unit)
    (li : String → Option LocationInfo)
    (hli : response.locationInfo = some li) :
    ∃ c ∈ generateColumns response aw selection selectionToggle srv panels
      odc, c.id = "column-location"
      ∧ c.width = max (widthBeforeLocation aw
          (selection.isSome && selectionToggle.isSome)
          (response.fields.ds_uid.isSome && odc.isSome)
          - TAGS_COLUMN_WIDTH) LOCATION_COLUMN_WIDTH := by
  rcases selection with _ | sel <;> rcases selectionToggle with _ | st <;>
    rcases hds : response.fields.ds_uid with _ | dsf <;>
    rcases odc with _ | u <;>
    simp [generateColumns, hds, hli, widthBeforeLocation]

/-- Helper: without location metadata no location column is emitted. -/
theorem location_column_absent (response : QueryResponse) (aw : ℚ)
    (selection : Option SelectionChecker) (selectionToggle : Option Unit)
    (srv : DataSourceSrv) (panels : PanelRegistry) (odc : Option Unit)
    (hli : response.locationInfo = none) :
    ∀ c ∈ generateColumns response aw selection selectionToggle srv panels
      odc, c.id ≠ "column-location" := by
  rcases selection with _ | sel <;> rcases selectionToggle with _ | st <;>
    rcases hds : response.fields.ds_uid with _ | dsf <;>
    rcases odc with _ | u <;>
    simp [generateColumns, hds, hli, List.forall_mem_cons]

/-- C5: the location column is included iff the result metadata provides a
location-info mapping, with width `max(remaining − 300, 200)` computed from
the budget remaining at that step; the datasource column is included iff the
view has a `ds_uid` field and a datasource-change callback was supplied, with
fixed width 200. -/
theorem C5_location_datasource_columns (response : QueryResponse) (aw : ℚ)
    (selection : Option SelectionChecker) (selectionToggle : Option Unit)
    (srv : DataSourceSrv) (panels : PanelRegistry) (odc : Option Unit) :
    ((response.fields.ds_uid.isSome = true ∧ odc.isSome = true) →
      ∃ c ∈ generateColumns response aw selection selectionToggle srv panels
        odc, c.id = "column-datasource" ∧ c.width = DATASOURCE_COLUMN_WIDTH)
    ∧ ((response.fields.ds_uid = none ∨ odc = none) →
      ∀ c ∈ generateColumns response aw selection selectionToggle srv panels
        odc, c.id ≠ "column-datasource")
    ∧ (∀ li, response.locationInfo = some li →
      ∃ c ∈ generateColumns response aw selection selectionToggle srv panels
        odc, c.id = "column-location"
        ∧ c.width = max (widthBeforeLocation aw
            (selection.isSome && selectionToggle.isSome)
            (response.fields.ds_uid.isSome && odc.isSome)
            - TAGS_COLUMN_WIDTH) LOCATION_COLUMN_WIDTH)
    ∧ (response.locationInfo = none →
      ∀ c ∈ generateColumns response aw selection selectionToggle srv panels
        odc, c.id ≠ "column-location") := by
  refine ⟨?_, ?_, ?_, ?_⟩
  · rintro ⟨h1, h2⟩
    rcases hds : response.fields.ds_uid with _ | dsf
    · rw [hds] at h1; simp at h1
    · rcases odc with _ | u
      · simp at h2
      · exact datasource_column_present response aw selection selectionToggle
          srv panels dsf hds u
  · exact datasource_column_absent response aw selection selectionToggle srv
      panels odc
  · intro li hli
    exact location_column_present response aw selection selectionToggle srv
      panels odc li hli
  · intro hli
    exact location_column_absent response aw selection selectionToggle srv
      panels odc hli

/-- Witness for `C5_location_datasource_columns` at a concrete input: with a
`ds_uid` field, a datasource-change callback, and location metadata supplied,
the planning call contains a datasource column of width 200 and a location
column of the claimed width. -/
theorem C5_witness :
    (∃ c ∈ generateColumns r2 2000 none none srv0 panels0 (some ()),
      c.id = "column-datasource" ∧ c.width = DATASOURCE_COLUMN_WIDTH)
    ∧ ∃ c ∈ generateColumns r2 2000 none none srv0 panels0 (some ()),
      c.id = "column-location"
      ∧ c.width = max (widthBeforeLocation 2000 false true
          - TAGS_COLUMN_WIDTH) LOCATION_COLUMN_WIDTH :=
  ⟨(C5_location_datasource_columns r2 2000 none none srv0 panels0
      (some ())).1 ⟨rfl, rfl⟩,
    (C5_location_datasource_columns r2 2000 none none srv0 panels0
      (some ())).2.2.1 li2 rfl⟩

/-! ### C6 -/

/-- The location column's cell formatter computes exactly the claimed
rendering of the row's location value. -/
theorem locationColumn_cell (lf : Option (FieldVals String))
    (li : String → Option LocationInfo) (w : ℚ) (i : Nat) :
    (locationColumn lf li w).cell i
      = .ok (claimedLocationCell li (lf.bind fun f => f i)) := rfl

/-- C6: whenever location metadata is supplied, the emitted location column's
cell formatter renders, for every row, the `/`-segments of the row's location
string in order — a known segment as a link with the icon of its kind and
label `info.name`, an unknown segment as the raw key in plain text — and
`getIconForKind` maps `"dashboard"` to the apps icon, `"folder"` to the
folder icon and everything else to `"question-circle"`. -/
theorem C6_location_formatter (response : QueryResponse) (aw : ℚ)
    (selection : Option SelectionChecker) (selectionToggle : Option Unit)
    (srv : DataSourceSrv) (panels : PanelRegistry) (odc : Option Unit)
    (li : String → Option LocationInfo)
    (hli : response.locationInfo = some li) :
    (∃ c ∈ generateColumns response aw selection selectionToggle srv panels
      odc, c.id = "column-location"
      ∧ ∀ i, c.cell i = .ok (claimedLocationCell li
          (response.fields.location.bind fun lf => lf i)))
    ∧ getIconForKind "dashboard" = "apps"
    ∧ getIconForKind "folder" = "folder"
    ∧ ∀ k, k ≠ "dashboard" → k ≠ "folder" →
        getIconForKind k = "question-circle" := by
  refine ⟨?_, rfl, rfl, ?_⟩
  · rcases selection with _ | sel <;> rcases selectionToggle with _ | st <;>
      rcases hds : response.fields.ds_uid with _ | dsf <;>
      rcases odc with _ | u <;>
      simp [generateColumns, hds, hli, locationColumn_cell]
  · intro k h1 h2
    simp [getIconForKind, h1, h2]

/-- Witness for `C6_location_formatter` at the spec's example: the location
cell of the concrete call renders one link (for `"a"`, a folder) and one
plain-text span with content `"b"`. -/
theorem C6_witness :
    (∃ c ∈ generateColumns r3 2000 none none srv0 panels0 none,
      c.id = "column-location"
      ∧ ∀ i, c.cell i = .ok (claimedLocationCell li2
          (r3.fields.location.bind fun lf => lf i)))
    ∧ claimedLocationCell li2 (some "a/b")
      = .location [.link "folder" "A" "/a", .text "b"] :=
  ⟨(C6_location_formatter r3 2000 none none srv0 panels0 none li2 rfl).1,
    by decide⟩

/-! ### C7 -/

/-- Shared helper: the datasource column's cell formatter computes exactly the
claimed rendering (in particular it never throws). -/
theorem makeDataSourceColumn_cell (field : FieldVals (List String)) (w : ℚ)
    (srv : DataSourceSrv) (i : Nat) :
    (makeDataSourceColumn field w srv).cell i
      = .ok (claimedDataSourceCell srv (field i)) := by
  simp only [makeDataSourceColumn, claimedDataSourceCell]
  cases field i with
  | none => rfl
  | some l =>
    cases l with
    | nil => rfl
    | cons a as => simp [claimedDataSourceItem]

/-- C7: for every row the datasource cell formatter returns (never throws) the
claimed rendering: `null` when the row's datasource list is absent or empty,
otherwise a chip per resolvable identifier — click suppressing the event and
invoking the callback with the resolved uid — and the raw identifier in the
invalid style for unknown identifiers or missing logos. -/
theorem C7_datasource_formatter (field : FieldVals (List String)) (w : ℚ)
    (srv : DataSourceSrv) (i : Nat) :
    (makeDataSourceColumn field w srv).cell i
      = .ok (claimedDataSourceCell srv (field i)) :=
  makeDataSourceColumn_cell field w srv i

/-! ### C8 -/

/-- Shared helper: the selection cell (when the uid field exists) renders a
checkbox whose onChange handler only invokes the toggle, with the kind value
`kindAt` and the row's uid. -/
theorem selectionColumn_cell (uidField kindField : Option (FieldVals String))
    (sel : SelectionChecker) (uf : FieldVals String)
    (huf : uidField = some uf) (i : Nat) :
    (selectionColumn uidField kindField sel).cell i
      = .ok (.checkbox (uf i).isNone
          (sel (kindAt kindField i) (uf i) && (uf i).isSome)
          [.invoke "selectionToggle" [kindAt kindField i, uf i]]) := by
  simp only [selectionColumn, huf, kindAt]
  cases uf i <;> rfl

/-- Shared helper: any chip produced by the claimed datasource-item rendering
carries exactly stopPropagation, preventDefault, then the callback invocation. -/
theorem claimedDataSourceItem_chip (srv : DataSourceSrv)
    (v ic nm tp : String) (oc : List UIEvent)
    (h : claimedDataSourceItem srv v = .chip ic nm tp oc) :
    ∃ u, oc = [.stopPropagation, .preventDefault,
      .invoke "onDatasourceChange" [some u]] := by
  unfold claimedDataSourceItem at h
  rcases hs : srv v with _ | s
  · rw [hs] at h; cases h
  · rw [hs] at h
    dsimp only at h
    rcases hl : s.logoSmall with _ | icon
    · rw [hl] at h; cases h
    · rw [hl] at h
      dsimp only at h
      by_cases hi : icon = ""
      · rw [if_neg (fun hc => hc hi)] at h; cases h
      · rw [if_pos hi] at h
        cases h
        exact ⟨s.uid, rfl⟩

/-- C8 (counterexample): the claim "every caller-supplied callback invocation
suppresses default and bubbling behavior before the callback" is false: in a
concrete planning call with selection supplied, the first column's per-row
checkbox onChange handler invokes the selection toggle without any
preventDefault or stopPropagation. -/
theorem C8_counterexample :
    (generateColumns r1 1000 (some sel1) (some ()) srv0 panels0
        none).headI.cell 0
      = .ok (.checkbox false true
          [.invoke "selectionToggle" [some "dashboard", some "u1"]])
    ∧ UIEvent.preventDefault
        ∉ [UIEvent.invoke "selectionToggle" [some "dashboard", some "u1"]]
    ∧ UIEvent.stopPropagation
        ∉ [UIEvent.invoke "selectionToggle" [some "dashboard", some "u1"]] := by
  refine ⟨by decide, by decide, by decide⟩

/-- C8 (amended): the datasource-change invocation suppresses bubbling and
default behavior (stopPropagation, then preventDefault) before the callback is
called, but the per-row selection-toggle invocation does not — its onChange
handler consists of the toggle invocation alone. -/
theorem C8_amended_suppression (uidField kindField : Option (FieldVals String))
    (sel : SelectionChecker) (field : FieldVals (List String)) (w : ℚ)
    (srv : DataSourceSrv) (i : Nat) :
    (∀ items, (makeDataSourceColumn field w srv).cell i
        = .ok (.datasource items) →
      ∀ item ∈ items, ∀ ic nm tp oc, item = .chip ic nm tp oc →
        ∃ u, oc = [.stopPropagation, .preventDefault,
          .invoke "onDatasourceChange" [some u]])
    ∧ (∀ uf, uidField = some uf →
        (selectionColumn uidField kindField sel).cell i
          = .ok (.checkbox (uf i).isNone
              (sel (kindAt kindField i) (uf i) && (uf i).isSome)
              [.invoke "selectionToggle" [kindAt kindField i, uf i]])) := by
  constructor
  · intro items h item hmem ic nm tp oc hchip
    rw [makeDataSourceColumn_cell] at h
    rcases hf : field i with _ | l
    · rw [hf] at h
      cases Except.ok.inj h
    · rw [hf] at h
      cases l with
      | nil => cases Except.ok.inj h
      | cons a as =>
        have hitems : items = (a :: as).map (claimedDataSourceItem srv) :=
          (CellRender.datasource.inj (Except.ok.inj h)).symm
        rw [hitems] at hmem
        obtain ⟨v, _, hv⟩ := List.mem_map.mp hmem
        exact claimedDataSourceItem_chip srv v ic nm tp oc (hv.trans hchip)
  · intro uf huf
    exact selectionColumn_cell uidField kindField sel uf huf i

/-- Witness for `C8_amended_suppression` at a concrete input: the chip for
`"ds1"` suppresses the event before invoking the callback with uid `"uid1"`,
and the concrete selection cell's onChange is the bare toggle invocation. -/
theorem C8_witness :
    (∃ u, [UIEvent.stopPropagation, UIEvent.preventDefault,
        UIEvent.invoke "onDatasourceChange" [some "uid1"]]
      = [UIEvent.stopPropagation, UIEvent.preventDefault,
        UIEvent.invoke "onDatasourceChange" [some u]])
    ∧ (selectionColumn (some uidVals) none sel1).cell 0
        = .ok (.checkbox false true
            [.invoke "selectionToggle" [some "dashboard", some "u1"]]) := by
  have h := C8_amended_suppression (some uidVals) none sel1 dsVals1 200 srv1 0
  refine ⟨?_, ?_⟩
  · exact h.1
      [.chip "logo.svg" "DS One" "prometheus"
        [.stopPropagation, .preventDefault,
          .invoke "onDatasourceChange" [some "uid1"]], .invalid "ds2"]
      (by decide)
      (.chip "logo.svg" "DS One" "prometheus"
        [.stopPropagation, .preventDefault,
          .invoke "onDatasourceChange" [some "uid1"]])
      (by decide) "logo.svg" "DS One" "prometheus"
      [.stopPropagation, .preventDefault,
        .invoke "onDatasourceChange" [some "uid1"]] rfl
  · have h2 := h.2 uidVals rfl
    simpa [uidVals, sel1, kindAt] using h2

/-! ### C9 -/

/-- C9 (code behavior at the failing input): with a result view that has no
tags field, the planner still emits the tags column and its cell formatter
throws (the TypeError of reading `.values` on `undefined`) at every row —
here row 0 — instead of rendering empty as the spec requires. -/
theorem C9_tags_crash :
    (makeTagsColumn noFields.tags 100).cell 0 = .error undefinedAccessError
    ∧ ((generateColumns r0 1000 none none srv0 panels0
        none).reverse.headI).cell 0 = .error undefinedAccessError := by
  refine ⟨rfl, by decide⟩

/-! ### C10 -/

/-- Shared helper: with no kind field accessor the type cell always resolves
to the dashboard icon and label. -/
theorem makeTypeColumn_cell_nokind (tf : Option (FieldVals String)) (w : ℚ)
    (panels : PanelRegistry) (i : Nat) :
    (makeTypeColumn none tf w panels).cell i
      = .ok (.typeCell appsSvg "Dashboard") := rfl

/-- C10: when the result view has no kind field accessor, every row is treated
as kind "dashboard": the selection cell calls the selection predicate and
invokes the toggle with the literal kind string "dashboard", and the type
column's formatter resolves every row to the dashboard icon and label. -/
theorem C10_kind_fallback (response : QueryResponse) (aw : ℚ)
    (sel : SelectionChecker) (srv : DataSourceSrv) (panels : PanelRegistry)
    (odc : Option Unit) (uf : FieldVals String)
    (hkind : response.fields.kind = none)
    (huf : response.fields.uid = some uf) (i : Nat) :
    ∃ rest, generateColumns response aw (some sel) (some ()) srv panels odc
        = selectionColumn response.fields.uid response.fields.kind sel :: rest
      ∧ (selectionColumn response.fields.uid response.fields.kind sel).cell i
          = .ok (.checkbox (uf i).isNone
              (sel (some "dashboard") (uf i) && (uf i).isSome)
              [.invoke "selectionToggle" [some "dashboard", uf i]])
      ∧ ∃ c ∈ generateColumns response aw (some sel) (some ()) srv panels odc,
          c.id = "column-type"
          ∧ c.cell i = .ok (.typeCell appsSvg "Dashboard") := by
  refine ⟨_, rfl, ?_, ?_⟩
  · rw [selectionColumn_cell response.fields.uid response.fields.kind sel uf
      huf i, hkind]
    rfl
  · rcases hds : response.fields.ds_uid with _ | dsf <;>
      rcases odc with _ | u <;>
      rcases hli : response.locationInfo with _ | li <;>
      simp [generateColumns, hds, hli, hkind, makeTypeColumn_cell_nokind]

/-- Witness for `C10_kind_fallback` at a concrete input: the view with a uid
field and no kind field, with selection supplied. -/
theorem C10_witness :
    ∃ rest, generateColumns r1 1000 (some sel1) (some ()) srv0 panels0 none
        = selectionColumn r1.fields.uid r1.fields.kind sel1 :: rest
      ∧ (selectionColumn r1.fields.uid r1.fields.kind sel1).cell 0
          = .ok (.checkbox (uidVals 0).isNone
              (sel1 (some "dashboard") (uidVals 0) && (uidVals 0).isSome)
              [.invoke "selectionToggle" [some "dashboard", uidVals 0]])
      ∧ ∃ c ∈ generateColumns r1 1000 (some sel1) (some ()) srv0 panels0 none,
          c.id = "column-type"
          ∧ c.cell 0 = .ok (.typeCell appsSvg "Dashboard") :=
  C10_kind_fallback r1 1000 sel1 srv0 panels0 none uidVals rfl rfl 0

end GrafanaSearchColumns
